import Mathlib

/-!
Shallow embedding of the cyber_top battle-simulation core (Rust, bevy ECS)
for checking the specification's claims.

Conventions of the embedding:
* `f32` values are modelled as exact rationals (`ℚ`).
* `Vec2` mirrors bevy's 2-component vector with the operations the game uses.
* Euclidean length (`Vec2::length`, `distance`) is modelled by `Rat.sqrt`,
  which is the exact square root whenever the argument is the square of a
  rational (all concrete evaluations below are at such inputs); theorems
  about lengths are only stated where the exact value of the square root is
  either irrelevant or a perfect square.
* bevy `Entity` ids are modelled as `ℕ`; ECS queries over components become
  explicit record arguments or association lists keyed by the entity id.
* Visual-only state (sprites, rotation angle, audio) is orthogonal to every
  claim and is elided from the per-system state records.
-/

/-- 2D vector over ℚ, mirroring `bevy::math::Vec2`. -/
structure Vec2 where
  x : ℚ
  y : ℚ
deriving DecidableEq, Repr

namespace Vec2

def zero : Vec2 := ⟨0, 0⟩

def add (a b : Vec2) : Vec2 := ⟨a.x + b.x, a.y + b.y⟩

def sub (a b : Vec2) : Vec2 := ⟨a.x - b.x, a.y - b.y⟩

def smul (k : ℚ) (v : Vec2) : Vec2 := ⟨k * v.x, k * v.y⟩

def dot (a b : Vec2) : ℚ := a.x * b.x + a.y * b.y

def normSq (v : Vec2) : ℚ := v.dot v

/-- `Vec2::length`. -/
def len (v : Vec2) : ℚ := Rat.sqrt v.normSq

/-- `Vec2::distance`. -/
def dist (a b : Vec2) : ℚ := (a.sub b).len

/-- `Vec2::normalize_or_zero`. -/
def normalizeOrZero (v : Vec2) : Vec2 :=
  if v = zero then zero else smul (1 / v.len) v

end Vec2

-- ── Numeric newtypes (src/game/stats/types.rs) ──────────────────────

/-- `SpinHp`: health value, clamped to be non-negative. -/
structure SpinHp where
  val : ℚ
deriving DecidableEq, Repr

namespace SpinHp

def new (v : ℚ) : SpinHp := ⟨max v 0⟩

/-- `SpinHp::sub_clamped`. -/
def sub_clamped (s : SpinHp) (delta : ℚ) : SpinHp := ⟨max (s.val - delta) 0⟩

/-- `SpinHp::add_clamped`. -/
def add_clamped (s : SpinHp) (delta : ℚ) (mx : ℚ) : SpinHp :=
  ⟨min (max (s.val + delta) 0) mx⟩

def is_alive (s : SpinHp) : Bool := 0 < s.val

end SpinHp

/-- `Seconds`: duration, constructor clamps to ≥ 0. -/
structure Seconds where
  val : ℚ
deriving DecidableEq, Repr

namespace Seconds

def new (v : ℚ) : Seconds := ⟨max v 0⟩

/-- `Seconds::dec`: decrement by dt, clamped to 0. -/
def dec (s : Seconds) (dt : ℚ) : Seconds := ⟨max (s.val - dt) 0⟩

def is_expired (s : Seconds) : Bool := s.val ≤ 0

end Seconds

/-- `Multiplier`: clamped to `[0, 10]` on construction. -/
structure Multiplier where
  val : ℚ
deriving DecidableEq, Repr

namespace Multiplier

def MAX : ℚ := 10

def new (v : ℚ) : Multiplier := ⟨min (max v 0) MAX⟩

def one : Multiplier := ⟨1⟩

def mul (a b : Multiplier) : Multiplier := new (a.val * b.val)

end Multiplier

-- ── Enums (src/game/stats/types.rs) ─────────────────────────────────

inductive DamageKind where
  | Collision
  | Melee
  | Projectile
  | Wall
  | Obstacle
deriving DecidableEq, Repr

inductive CollisionBehavior where
  | Solid
  | DamageOnHit
  | ApplyControlOnHit
deriving DecidableEq, Repr

inductive ControlEffect where
  | Stun (duration : Seconds)
  | Slow (duration : Seconds) (ratio : ℚ)
  | Knockback (distance : ℚ)
deriving DecidableEq, Repr

namespace ControlEffect

/-- `ControlEffect::apply_reduction`. -/
def apply_reduction (c : ControlEffect) (m : ℚ) : ControlEffect :=
  let m := max m 0
  match c with
  | Stun duration => Stun (Seconds.new (duration.val * m))
  | Slow duration ratio => Slow (Seconds.new (duration.val * m)) ratio
  | Knockback distance => Knockback (distance * m)

end ControlEffect

-- ── Tuning (src/config/tuning.rs); UI-only fields elided ────────────

structure Tuning where
  dt : ℚ
  arena_radius : ℚ
  wall_bounce_damping : ℚ
  top_collisions_restitution : ℚ
  spin_drain_idle_per_sec : ℚ
  spin_drain_on_wall_hit : ℚ
  spin_drain_on_top_hit : ℚ
  collision_damage_k : ℚ
  wall_damage_k : ℚ
  max_speed : ℚ
  input_accel : ℚ
  melee_speed_scale_k : ℚ
  obstacle_damage : ℚ
deriving DecidableEq, Repr

/-- `Tuning::default` (gameplay fields). -/
def Tuning.default : Tuning where
  dt := 1 / 60
  arena_radius := 12
  wall_bounce_damping := 1
  top_collisions_restitution := 1
  spin_drain_idle_per_sec := 1 / 5
  spin_drain_on_wall_hit := 1 / 2
  spin_drain_on_top_hit := 1
  collision_damage_k := 1 / 2
  wall_damage_k := 3 / 10
  max_speed := 30
  input_accel := 25
  melee_speed_scale_k := 0
  obstacle_damage := 2

-- ── Stats (src/game/stats/base.rs, effective.rs, modifier.rs) ───────

/-- `BaseStats` (id/name strings elided). -/
structure BaseStats where
  spin_hp_max : SpinHp
  radius : ℚ
  move_speed : ℚ
  accel : ℚ
  control_reduction : ℚ
deriving DecidableEq, Repr

/-- `EffectiveStats`: cached resolved stats read during combat ticks. -/
structure EffectiveStats where
  spin_hp_max : SpinHp
  radius : ℚ
  move_speed : ℚ
  accel : ℚ
  control_multiplier : ℚ
  spin_drain_idle_per_sec : ℚ
  spin_drain_on_wall_hit : ℚ
  spin_drain_on_top_hit : ℚ
  stability : ℚ
  damage_out_mult : Multiplier
  damage_in_mult : Multiplier
  fire_rate_mult : Multiplier
deriving DecidableEq, Repr

/-- `StatModifier` with add / mul / optional clamps. -/
structure StatModifier where
  add : ℚ
  mul : ℚ
  clamp_min : Option ℚ
  clamp_max : Option ℚ
deriving DecidableEq, Repr

namespace StatModifier

def identity : StatModifier := ⟨0, 1, none, none⟩

/-- `StatModifier::apply`: `(base + add) * mul` then optional clamps. -/
def apply (m : StatModifier) (base : ℚ) : ℚ :=
  let v := (base + m.add) * m.mul
  let v := match m.clamp_min with
    | some mn => max v mn
    | none => v
  match m.clamp_max with
  | some mx => min v mx
  | none => v

end StatModifier

/-- `ModifierSet`: modifiers for all stat fields. -/
structure ModifierSet where
  spin_hp_max : StatModifier
  radius : StatModifier
  move_speed : StatModifier
  accel : StatModifier
  control_reduction_sources : List ℚ
  stability : StatModifier
  spin_efficiency : StatModifier
  damage_out_mult : Multiplier
  damage_in_mult : Multiplier
  fire_rate_mult : Multiplier
deriving DecidableEq, Repr

namespace ModifierSet

/-- `ModifierSet::compute_effective`. -/
def compute_effective (ms : ModifierSet) (base : BaseStats) (tuning : Tuning) :
    EffectiveStats :=
  let spin_hp_max := max (ms.spin_hp_max.apply base.spin_hp_max.val) 0
  let radius := max (ms.radius.apply base.radius) (1 / 100)
  let move_speed := min (max (ms.move_speed.apply base.move_speed) 0) tuning.max_speed
  let combined :=
    ms.control_reduction_sources.foldl (fun acc r => acc * (1 + r)) 1
  let combined := combined * (1 + base.control_reduction)
  let big_r := combined - 1
  let control_multiplier := max (1 - big_r) 0
  let accel := max (ms.accel.apply base.accel) 0
  let stability := max (ms.stability.apply 0) 0
  let spin_efficiency := min (max (ms.spin_efficiency.apply 1) 0) 10
  { spin_hp_max := SpinHp.mk spin_hp_max
    radius := radius
    move_speed := move_speed
    accel := accel
    control_multiplier := control_multiplier
    spin_drain_idle_per_sec := tuning.spin_drain_idle_per_sec / spin_efficiency
    spin_drain_on_wall_hit := tuning.spin_drain_on_wall_hit
    spin_drain_on_top_hit := tuning.spin_drain_on_top_hit
    stability := stability
    damage_out_mult := ms.damage_out_mult
    damage_in_mult := ms.damage_in_mult
    fire_rate_mult := ms.fire_rate_mult }

end ModifierSet

-- ── Entities, events (src/game/events.rs) ───────────────────────────

/-- bevy `Entity`, modelled as a natural-number id. -/
abbrev Entity := ℕ

/-- `CollisionMessage`: a Top–Top collision fact for this tick. -/
structure CollisionMessage where
  a : Entity
  b : Entity
  impulse : ℚ
  normal : Vec2
deriving DecidableEq, Repr

/-- `GameEvent` (the `ApplyStatus`/`SpawnObstacle` variants are unused by the
claims and elided; `SpawnProjectile` carries only the claim-relevant fields). -/
inductive GameEvent where
  | DealDamage (src : Option Entity) (dst : Entity) (amount : ℚ)
      (kind : DamageKind) (tags : List String)
  | ApplyControl (src : Option Entity) (dst : Entity) (control : ControlEffect)
  | SpawnProjectile (src : Entity) (position : Vec2) (direction : Vec2)
      (speed : ℚ) (damage : ℚ) (radius : ℚ) (lifetime : ℚ)
  | DespawnEntity (entity : Entity)
deriving DecidableEq, Repr

-- ── ControlState (src/game/components.rs, lines 115–155) ────────────

structure ControlState where
  stun_remaining : Seconds
  slow_remaining : Seconds
  slow_ratio : ℚ
deriving DecidableEq, Repr

namespace ControlState

def default : ControlState := ⟨⟨0⟩, ⟨0⟩, 0⟩

def is_stunned (c : ControlState) : Bool := !c.stun_remaining.is_expired

def is_slowed (c : ControlState) : Bool := !c.slow_remaining.is_expired

def tick (c : ControlState) (dt : ℚ) : ControlState :=
  { c with
    stun_remaining := c.stun_remaining.dec dt
    slow_remaining := c.slow_remaining.dec dt }

/-- `ControlState::apply_control`. -/
def apply_control (c : ControlState) (control : ControlEffect)
    (control_multiplier : ℚ) : ControlState :=
  match control.apply_reduction control_multiplier with
  | ControlEffect.Stun duration =>
      if c.stun_remaining.val < duration.val then
        { c with stun_remaining := duration }
      else c
  | ControlEffect.Slow duration ratio =>
      if c.slow_remaining.val < duration.val then
        { c with slow_remaining := duration, slow_ratio := ratio }
      else c
  | ControlEffect.Knockback _ => c

end ControlState

-- ── MeleeHitTracker (src/game/components.rs, lines 247–268) ─────────

/-- Per-target melee hit cooldown list. -/
structure MeleeHitTracker where
  cooldowns : List (Entity × ℚ)
deriving DecidableEq, Repr

namespace MeleeHitTracker

def default : MeleeHitTracker := ⟨[]⟩

/-- `MeleeHitTracker::can_hit`. -/
def can_hit (tr : MeleeHitTracker) (target : Entity) : Bool :=
  !(tr.cooldowns.any (fun p => p.1 == target && decide (0 < p.2)))

/-- `MeleeHitTracker::register_hit`. -/
def register_hit (tr : MeleeHitTracker) (target : Entity) (cooldown : ℚ) :
    MeleeHitTracker :=
  ⟨tr.cooldowns ++ [(target, cooldown)]⟩

/-- `MeleeHitTracker::tick`: decrement all, prune the expired. -/
def tick (tr : MeleeHitTracker) (dt : ℚ) : MeleeHitTracker :=
  ⟨(tr.cooldowns.map (fun p => (p.1, p.2 - dt))).filter (fun p => decide (0 < p.2))⟩

end MeleeHitTracker

-- ── Intent (src/game/intent.rs) ─────────────────────────────────────

structure Intent where
  move_dir : Vec2
  fire : Bool
deriving DecidableEq, Repr

-- ── apply_intent (src/game/physics.rs, lines 8–41) ──────────────────

/-- Per-top state read/written by `apply_intent`. -/
structure IntentTopState where
  vel : Vec2
  stats : EffectiveStats
  control : ControlState
deriving DecidableEq, Repr

/-- `apply_intent`, per top: acceleration from movement intent, then the
speed clamp. Returns the new velocity. -/
def apply_intent (tuning : Tuning) (intent : Intent) (st : IntentTopState) :
    Vec2 :=
  let dt := tuning.dt
  if st.control.is_stunned then st.vel
  else
    let accel := tuning.input_accel
    let max_speed := st.stats.move_speed
    let speed_mult := if st.control.is_slowed then 1 - st.control.slow_ratio else 1
    let vel :=
      if intent.move_dir ≠ Vec2.zero then
        st.vel.add ((intent.move_dir.normalizeOrZero).smul (accel * dt))
      else st.vel
    let effective_max := max_speed * speed_mult
    let speed := vel.len
    if effective_max < speed then (vel.normalizeOrZero).smul effective_max
    else vel

-- ── integrate_physics (src/game/physics.rs, lines 44–58) ────────────

/-- Position/velocity state of one top (rotation-angle bookkeeping elided:
purely visual, no claim concerns it). -/
structure PhysTopState where
  pos : Vec2
  vel : Vec2
deriving DecidableEq, Repr

/-- `integrate_physics`, per top: `position += velocity * dt`. -/
def integrate_physics (tuning : Tuning) (st : PhysTopState) : PhysTopState :=
  { st with pos := st.pos.add (st.vel.smul tuning.dt) }

/-- `spin_drain`, per top: idle drain of SpinHp. -/
def spin_drain (tuning : Tuning) (stats : EffectiveStats) (spin : SpinHp) :
    SpinHp :=
  spin.sub_clamped (stats.spin_drain_idle_per_sec * tuning.dt)

-- ── generate_collision_damage (src/game/combat.rs, lines 10–33) ─────

/-- `generate_collision_damage`: each Top–Top collision message yields two
`DealDamage` events of amount `collision_damage_k * impulse`, one in each
direction. -/
def generate_collision_damage (tuning : Tuning)
    (collision_events : List CollisionMessage) : List GameEvent :=
  collision_events.flatMap (fun event =>
    let damage := tuning.collision_damage_k * event.impulse
    [GameEvent.DealDamage (some event.a) event.b damage DamageKind.Collision
        ["collision"],
     GameEvent.DealDamage (some event.b) event.a damage DamageKind.Collision
        ["collision"]])

-- ── apply_damage_events (src/game/combat.rs, lines 36–74) ───────────

/-- The components of one Top read/written by the damage/control appliers:
current SpinHp, cached effective stats, active damage-boost multiplier,
control state. -/
structure TopCombat where
  spin : SpinHp
  stats : EffectiveStats
  boost : ℚ
  control : ControlState
deriving DecidableEq, Repr

/-- The `Query<... With<Top>>` world: association list entity id ↦ components. -/
abbrev TopWorld := List (Entity × TopCombat)

/-- `tops.get(entity)`: query lookup by entity id. -/
def findTop (w : TopWorld) (e : Entity) : Option TopCombat :=
  (w.find? (fun p => p.1 == e)).map Prod.snd

/-- Update the components of one entity in the world (a `get_mut` write). -/
def updateTop (w : TopWorld) (e : Entity) (f : TopCombat → TopCombat) :
    TopWorld :=
  w.map (fun p => if p.1 == e then (p.1, f p.2) else p)

/-- `apply_damage_events`, one event: source-side multipliers when the source
is a top in the query, then destination-side multiplier, clamp, subtract. -/
def apply_damage_event (w : TopWorld) (event : GameEvent) : TopWorld :=
  match event with
  | GameEvent.DealDamage src dst amount _ _ =>
      let amount :=
        match src with
        | some src_entity =>
            match findTop w src_entity with
            | some src_top =>
                amount * src_top.stats.damage_out_mult.val * src_top.boost
            | none => amount
        | none => amount
      updateTop w dst (fun top =>
        let amount := amount * top.stats.damage_in_mult.val
        let amount := max amount 0
        { top with spin := top.spin.sub_clamped amount })
  | _ => w

/-- `apply_damage_events` over the tick's event batch. -/
def apply_damage_events (w : TopWorld) (events : List GameEvent) : TopWorld :=
  events.foldl apply_damage_event w

/-- `apply_control_events`, one event. -/
def apply_control_event (w : TopWorld) (event : GameEvent) : TopWorld :=
  match event with
  | GameEvent.ApplyControl _ dst control =>
      updateTop w dst (fun top =>
        { top with
          control := top.control.apply_control control top.stats.control_multiplier })
  | _ => w

-- ── resolve_top_collisions (src/game/combat.rs, lines 91–148) ───────

/-- Transform + Velocity + cached stats of one top, as fetched by
`tops.get_many_mut([event.a, event.b])`. -/
structure TopPhys where
  pos : Vec2
  vel : Vec2
  stats : EffectiveStats
deriving DecidableEq, Repr

/-- `resolve_top_collisions`, one collision message: impulse exchange weighted
by inverse mass `1 / (1 + stability)`, then positional separation. No speed
clamp is applied. -/
def resolve_top_collision (tuning : Tuning) (event : CollisionMessage)
    (top_a top_b : TopPhys) : TopPhys × TopPhys :=
  let e := min (max tuning.top_collisions_restitution 0) 1
  let inv_mass_a := 1 / (1 + max top_a.stats.stability 0)
  let inv_mass_b := 1 / (1 + max top_b.stats.stability 0)
  let inv_mass_sum := inv_mass_a + inv_mass_b
  if inv_mass_sum ≤ 0 then (top_a, top_b)
  else
    let n := event.normal
    let v_rel := top_a.vel.sub top_b.vel
    let v_rel_n := v_rel.dot n
    if v_rel_n ≤ 0 then (top_a, top_b)
    else
      let j := (1 + e) * v_rel_n / inv_mass_sum
      let top_a := { top_a with vel := top_a.vel.sub (n.smul (j * inv_mass_a)) }
      let top_b := { top_b with vel := top_b.vel.add (n.smul (j * inv_mass_b)) }
      let pos_a := top_a.pos
      let pos_b := top_b.pos
      let delta := pos_b.sub pos_a
      let d := delta.len
      let min_dist := top_a.stats.radius + top_b.stats.radius
      if d < min_dist ∧ 0 < d then
        let overlap := min_dist - d
        let sep_n := delta.smul (1 / d)
        let move_a := overlap * (inv_mass_a / inv_mass_sum)
        let move_b := overlap * (inv_mass_b / inv_mass_sum)
        ({ top_a with pos := top_a.pos.sub (sep_n.smul move_a) },
         { top_b with pos := top_b.pos.add (sep_n.smul move_b) })
      else (top_a, top_b)

-- ── wall_reflection (src/game/arena/circle.rs, lines 25–71) ─────────

/-- `wall_reflection`, one top: boundary push-back, reflection with damping,
and the wall-damage event (of fixed amount `wall_damage_k`). Returns the new
transform/velocity and the events written. -/
def wall_reflection (tuning : Tuning) (arena_r : ℚ) (entity : Entity)
    (st : TopPhys) : TopPhys × List GameEvent :=
  let damping := min (max tuning.wall_bounce_damping 0) 1
  let pos := st.pos
  let top_radius := st.stats.radius
  let d := pos.len
  let boundary := arena_r - top_radius
  if boundary < d ∧ 0 < d then
    let normal := pos.smul (1 / d)
    let overshoot := d - boundary
    let st := { st with pos := st.pos.sub (normal.smul overshoot) }
    let dotvn := st.vel.dot normal
    if 0 < dotvn then
      let vel := st.vel.sub (normal.smul (2 * dotvn))
      let vel := vel.smul damping
      let st := { st with vel := vel }
      if 0 < tuning.wall_damage_k then
        (st, [GameEvent.DealDamage none entity tuning.wall_damage_k
                DamageKind.Wall ["wall_hit"]])
      else (st, [])
    else (st, [])
  else (st, [])

-- ── detect_collisions (src/game/collision.rs) ───────────────────────

/-- A top as seen by `detect_collisions`: entity, transform, velocity, stats. -/
structure TopView where
  entity : Entity
  pos : Vec2
  vel : Vec2
  stats : EffectiveStats
deriving DecidableEq, Repr

/-- Top–Top pair test (lines 26–49): overlapping and approaching pairs
produce a `CollisionMessage` with impulse `dot(v_a - v_b, normal)`. -/
def detect_top_top_pair (ta tb : TopView) : List CollisionMessage :=
  let pos_a := ta.pos
  let pos_b := tb.pos
  let d := pos_a.dist pos_b
  let min_dist := ta.stats.radius + tb.stats.radius
  if d < min_dist ∧ 0 < d then
    let normal := (pos_b.sub pos_a).smul (1 / d)
    let rel_vel := ta.vel.sub tb.vel
    let impulse := rel_vel.dot normal
    if 0 < impulse then [⟨ta.entity, tb.entity, impulse, normal⟩] else []
  else []

/-- A projectile as seen by `detect_collisions`: entity, transform, collision
radius, owner, damage. -/
structure ProjectileView where
  entity : Entity
  pos : Vec2
  radius : ℚ
  owner : Entity
  damage : ℚ
deriving DecidableEq, Repr

/-- Projectile–Top tests for one projectile (lines 79–105): every overlapping
non-owner top yields a `DealDamage` plus a `DespawnEntity` event; the loop
does not stop after the first overlap. -/
def detect_projectile_hits (proj : ProjectileView) (top_list : List TopView) :
    List GameEvent :=
  top_list.flatMap (fun top =>
    if top.entity == proj.owner then []
    else
      let d := proj.pos.dist top.pos
      let min_dist := proj.radius + top.stats.radius
      if d < min_dist then
        [GameEvent.DealDamage (some proj.owner) top.entity proj.damage
            DamageKind.Projectile [],
         GameEvent.DespawnEntity proj.entity]
      else [])

-- ── Zone systems (src/plugins/game_plugin.rs, lines 816–862) ────────

/-- `SpeedBoostZone` entity: transform, collision radius, zone parameters. -/
structure SpeedZoneView where
  pos : Vec2
  radius : ℚ
  multiplier : ℚ
  duration : ℚ
deriving DecidableEq, Repr

/-- `SpeedBoostEffect` component on a top. -/
structure SpeedBoostEffect where
  expires_at : ℚ
  multiplier : ℚ
deriving DecidableEq, Repr

/-- One top's state through the zone + integration systems of `PhysicsSet`. -/
structure ZoneTopState where
  pos : Vec2
  vel : Vec2
  stats : EffectiveStats
  effect : SpeedBoostEffect
deriving DecidableEq, Repr

/-- `speed_boost_system` for one top: scan all zones; while inside at least
one, record the strongest multiplier/duration on the `SpeedBoostEffect`. -/
def speed_boost_system (now : ℚ) (zones : List SpeedZoneView)
    (st : ZoneTopState) : ZoneTopState :=
  let top_pos := st.pos
  let top_radius := st.stats.radius
  let scan := zones.foldl
    (fun (acc : Bool × ℚ × ℚ) zone =>
      if top_pos.dist zone.pos < top_radius + zone.radius then
        (true, max acc.2.1 zone.multiplier, max acc.2.2 zone.duration)
      else acc)
    (false, 1, 0)
  if scan.1 then
    { st with effect := ⟨now + scan.2.2, scan.2.1⟩ }
  else st

/-- `speed_boost_tick`: reset the effect to neutral once expired. -/
def speed_boost_tick (now : ℚ) (st : ZoneTopState) : ZoneTopState :=
  if st.effect.expires_at ≤ now then
    { st with effect := { st.effect with multiplier := 1 } }
  else st

/-- The `PhysicsSet` chain restricted to one top's speed-boost state and
position integration, in schedule order: `speed_boost_system`,
`speed_boost_tick`, then `integrate_physics` (which reads only `Velocity`). -/
def physics_set_zone_chain (tuning : Tuning) (now : ℚ)
    (zones : List SpeedZoneView) (st : ZoneTopState) : ZoneTopState :=
  let st := speed_boost_system now zones st
  let st := speed_boost_tick now st
  let phys := integrate_physics tuning ⟨st.pos, st.vel⟩
  { st with pos := phys.pos, vel := phys.vel }

-- ── detect_melee_hits (src/game/combat.rs, lines 232–311) ───────────

/-- Melee weapon spec (src/game/parts/weapon_wheel.rs). The source stores
`hitbox_angle` and tests `acos(dot(weapon_dir, target_dir)) > hitbox_angle/2`;
since `acos` is strictly decreasing on unit vectors this is exactly
`dot(weapon_dir, target_dir) < cos(hitbox_angle/2)`, carried here as the
precomputed field `cos_half_hitbox_angle`. -/
structure MeleeSpec where
  hitbox_radius : ℚ
  cos_half_hitbox_angle : ℚ
  hit_cooldown : ℚ
  base_damage : ℚ
  hit_control : Option ControlEffect
deriving DecidableEq, Repr

/-- An attacker in `detect_melee_hits`: entity, transform, weapon facing
direction (the source derives it as `(cos α, sin α)` from `RotationAngle`),
melee spec from the build, stats, velocity and hit tracker. -/
structure AttackerView where
  entity : Entity
  pos : Vec2
  weapon_dir : Vec2
  melee : Option MeleeSpec
  stats : EffectiveStats
  vel : Vec2
  tracker : MeleeHitTracker
deriving DecidableEq, Repr

/-- `detect_melee_hits` body for one attacker and one target: the cooldown
guard, reach test, facing-arc test, then hit registration and events. -/
def melee_try_target (tuning : Tuning) (melee : MeleeSpec) (atk : AttackerView)
    (tracker : MeleeHitTracker) (tgt : TopView) :
    MeleeHitTracker × List GameEvent :=
  if atk.entity == tgt.entity then (tracker, [])
  else if !(tracker.can_hit tgt.entity) then (tracker, [])
  else
    let to_target := tgt.pos.sub atk.pos
    let d := to_target.len
    let reach := atk.stats.radius + melee.hitbox_radius
    if reach + tgt.stats.radius < d then (tracker, [])
    else if 0 < d ∧
        atk.weapon_dir.dot (to_target.smul (1 / d)) < melee.cos_half_hitbox_angle
    then (tracker, [])
    else
      let tracker := tracker.register_hit tgt.entity melee.hit_cooldown
      let damage := melee.base_damage
      let damage :=
        if 0 < tuning.melee_speed_scale_k then
          damage * (1 + tuning.melee_speed_scale_k * atk.vel.len)
        else damage
      let events :=
        [GameEvent.DealDamage (some atk.entity) tgt.entity damage
            DamageKind.Melee []]
      let events :=
        match melee.hit_control with
        | some control =>
            events ++ [GameEvent.ApplyControl (some atk.entity) tgt.entity control]
        | none => events
      (tracker, events)

/-- `detect_melee_hits` for one attacker over the target query. -/
def detect_melee_hits (tuning : Tuning) (atk : AttackerView)
    (targets : List TopView) : MeleeHitTracker × List GameEvent :=
  match atk.melee with
  | none => (atk.tracker, [])
  | some melee =>
      targets.foldl
        (fun (acc : MeleeHitTracker × List GameEvent) tgt =>
          let r := melee_try_target tuning melee atk acc.1 tgt
          (r.1, acc.2 ++ r.2))
        (atk.tracker, [])

-- ── Helper definitions used by the theorems ─────────────────────────

/-- `EffectiveStats::default` (src/game/stats/effective.rs). -/
def EffectiveStats.default : EffectiveStats where
  spin_hp_max := ⟨100⟩
  radius := 1 / 2
  move_speed := 5
  accel := 25
  control_multiplier := 1
  spin_drain_idle_per_sec := 1 / 5
  spin_drain_on_wall_hit := 1 / 2
  spin_drain_on_top_hit := 1
  stability := 0
  damage_out_mult := Multiplier.one
  damage_in_mult := Multiplier.one
  fire_rate_mult := Multiplier.one

/-- Recognize a `DealDamage` event. -/
def isDealDamage : GameEvent → Bool
  | GameEvent.DealDamage _ _ _ _ _ => true
  | _ => false

/-- Recognize a melee `DealDamage` event aimed at `tgt`. -/
def isMeleeDealTo (tgt : Entity) : GameEvent → Bool
  | GameEvent.DealDamage _ dst _ DamageKind.Melee _ => dst == tgt
  | _ => false

/-- The speed multiplier from an active slow, as the spec words it. -/
def slow_mult (c : ControlState) : ℚ :=
  if c.is_slowed then 1 - c.slow_ratio else 1

/-- The speed clamp step of `apply_intent`, as the spec words it. -/
def speed_clamp (mx : ℚ) (v : Vec2) : Vec2 :=
  if mx < v.len then (v.normalizeOrZero).smul mx else v

-- ── Supporting lemmas ───────────────────────────────────────────────

lemma foldl_mul_one_add (l : List ℚ) (a : ℚ) :
    l.foldl (fun acc r => acc * (1 + r)) a = a * (l.map (fun r => 1 + r)).prod := by
  induction l generalizing a with
  | nil => simp
  | cons h t ih =>
      simp only [List.foldl_cons, List.map_cons, List.prod_cons, ih]
      ring

-- ── C6 ──────────────────────────────────────────────────────────────

/-- Claim C6: the resolved control-duration multiplier equals
`max 0 (1 - (Π(1+r_i) × (1+b) - 1))` for every source list and base ratio,
and the spec's concrete instance — sources `[0.2, 0.1]` with base `0.05` —
yields multiplier `0.614 = 307/500`. -/
theorem claim_C6_control_stacking :
    (∀ (ms : ModifierSet) (base : BaseStats) (tun : Tuning),
      (ms.compute_effective base tun).control_multiplier =
        max (1 - ((ms.control_reduction_sources.map (fun r => 1 + r)).prod *
          (1 + base.control_reduction) - 1)) 0) ∧
    (ModifierSet.compute_effective
      { spin_hp_max := StatModifier.identity
        radius := StatModifier.identity
        move_speed := StatModifier.identity
        accel := StatModifier.identity
        control_reduction_sources := [1/5, 1/10]
        stability := StatModifier.identity
        spin_efficiency := StatModifier.identity
        damage_out_mult := Multiplier.one
        damage_in_mult := Multiplier.one
        fire_rate_mult := Multiplier.one }
      { spin_hp_max := ⟨100⟩
        radius := 1
        move_speed := 5
        accel := 25
        control_reduction := 1/20 }
      Tuning.default).control_multiplier = 307 / 500 := by
  constructor
  · intro ms base tun
    simp only [ModifierSet.compute_effective, foldl_mul_one_add, one_mul]
  · norm_num [ModifierSet.compute_effective, List.foldl]

-- ── C7 ──────────────────────────────────────────────────────────────

/-- Claim C7: every Top–Top contact with impulse `I` produces exactly two
`DealDamage` events of equal amount `collision_damage_k * I`, one from each
top to the other (the generator reads no stats, so stability cannot enter). -/
theorem claim_C7_collision_damage_symmetry :
    (∀ (tun : Tuning) (msgs : List CollisionMessage),
      (generate_collision_damage tun msgs).length = 2 * msgs.length) ∧
    (∀ (tun : Tuning) (msgs : List CollisionMessage) (m : CollisionMessage),
      m ∈ msgs →
        GameEvent.DealDamage (some m.a) m.b (tun.collision_damage_k * m.impulse)
          DamageKind.Collision ["collision"] ∈ generate_collision_damage tun msgs ∧
        GameEvent.DealDamage (some m.b) m.a (tun.collision_damage_k * m.impulse)
          DamageKind.Collision ["collision"] ∈ generate_collision_damage tun msgs) := by
  constructor
  · intro tun msgs
    induction msgs with
    | nil => rfl
    | cons h t ih =>
        simp only [generate_collision_damage, List.flatMap_cons] at ih ⊢
        simp [ih]
        ring
  · intro tun msgs m hm
    constructor
    · simp only [generate_collision_damage, List.mem_flatMap]
      exact ⟨m, hm, by simp⟩
    · simp only [generate_collision_damage, List.mem_flatMap]
      exact ⟨m, hm, by simp⟩

/-- Witness for C7 at a concrete contact. -/
theorem claim_C7_witness :
    GameEvent.DealDamage (some 0) 1 (Tuning.default.collision_damage_k * 10)
        DamageKind.Collision ["collision"] ∈
      generate_collision_damage Tuning.default [⟨0, 1, 10, ⟨1, 0⟩⟩] ∧
    GameEvent.DealDamage (some 1) 0 (Tuning.default.collision_damage_k * 10)
        DamageKind.Collision ["collision"] ∈
      generate_collision_damage Tuning.default [⟨0, 1, 10, ⟨1, 0⟩⟩] :=
  claim_C7_collision_damage_symmetry.2 Tuning.default [⟨0, 1, 10, ⟨1, 0⟩⟩]
    ⟨0, 1, 10, ⟨1, 0⟩⟩ (List.mem_singleton_self _)

-- ── C8 ──────────────────────────────────────────────────────────────

/-- Claim C8: applying a stun or slow control effect sets the corresponding
timer to the reduction-adjusted duration only when that duration strictly
exceeds the time remaining; otherwise the state (timer, and for slow the
stored ratio) is unchanged. The resulting timer is the max of old and new —
durations are never summed. Knockback leaves the control state unchanged. -/
theorem claim_C8_control_extend_not_stack :
    ∀ (cs : ControlState) (m : ℚ) (d : Seconds) (r : ℚ) (k : ℚ),
      (cs.apply_control (ControlEffect.Stun d) m =
        (if cs.stun_remaining.val < (Seconds.new (d.val * max m 0)).val then
          { cs with stun_remaining := Seconds.new (d.val * max m 0) } else cs)) ∧
      ((cs.apply_control (ControlEffect.Stun d) m).stun_remaining.val =
        max cs.stun_remaining.val (Seconds.new (d.val * max m 0)).val) ∧
      (cs.apply_control (ControlEffect.Slow d r) m =
        (if cs.slow_remaining.val < (Seconds.new (d.val * max m 0)).val then
          { cs with slow_remaining := Seconds.new (d.val * max m 0),
                    slow_ratio := r }
         else cs)) ∧
      ((cs.apply_control (ControlEffect.Slow d r) m).slow_remaining.val =
        max cs.slow_remaining.val (Seconds.new (d.val * max m 0)).val) ∧
      (cs.apply_control (ControlEffect.Knockback k) m = cs) := by
  intro cs m d r k
  refine ⟨rfl, ?_, rfl, ?_, rfl⟩
  · by_cases h : cs.stun_remaining.val < (Seconds.new (d.val * max m 0)).val
    · simp [ControlState.apply_control, ControlEffect.apply_reduction, h,
        max_eq_right (le_of_lt h)]
    · simp [ControlState.apply_control, ControlEffect.apply_reduction, h,
        max_eq_left (not_lt.mp h)]
  · by_cases h : cs.slow_remaining.val < (Seconds.new (d.val * max m 0)).val
    · simp [ControlState.apply_control, ControlEffect.apply_reduction, h,
        max_eq_right (le_of_lt h)]
    · simp [ControlState.apply_control, ControlEffect.apply_reduction, h,
        max_eq_left (not_lt.mp h)]

-- ── C10 ─────────────────────────────────────────────────────────────

lemma findTop_updateTop (w : TopWorld) (e : Entity) (f : TopCombat → TopCombat) :
    findTop (updateTop w e f) e = (findTop w e).map f := by
  induction w with
  | nil => rfl
  | cons p t ih =>
      by_cases h : p.1 = e
      · simp [findTop, updateTop, List.find?, h]
      · have hb : (p.1 == e) = false := by simpa using h
        simp only [findTop, updateTop, List.map_cons, List.find?, hb,
          if_false, Bool.false_eq_true] at ih ⊢
        exact ih

/-- Claim C10: a `DealDamage` event whose source entity is not in the top
query skips the source-side damage-out / damage-boost multipliers but is not
dropped: the amount is scaled by the destination's damage-in multiplier,
clamped to ≥ 0, and subtracted from the destination's SpinHp. -/
theorem claim_C10_missing_source_damage :
    ∀ (w : TopWorld) (s dst : Entity) (amount : ℚ) (kind : DamageKind)
      (tags : List String) (top : TopCombat),
      findTop w s = none → findTop w dst = some top →
      findTop
        (apply_damage_event w (GameEvent.DealDamage (some s) dst amount kind tags))
        dst =
      some { top with
             spin := top.spin.sub_clamped
               (max (amount * top.stats.damage_in_mult.val) 0) } := by
  intro w s dst amount kind tags top hs hd
  simp only [apply_damage_event, hs]
  rw [findTop_updateTop, hd]
  rfl

/-- Witness for C10: an obstacle-style source id `99` absent from the world;
the damage still lands on top `1` (`50 - max (10*2) 0 = 30`). -/
theorem claim_C10_witness :
    (findTop
      (apply_damage_event
        [(1, ⟨⟨50⟩, { EffectiveStats.default with damage_in_mult := ⟨2⟩ }, 1,
            ControlState.default⟩)]
        (GameEvent.DealDamage (some 99) 1 10 DamageKind.Obstacle [])) 1 =
      some ⟨SpinHp.sub_clamped ⟨50⟩ (max ((10:ℚ) * (2:ℚ)) 0),
        { EffectiveStats.default with damage_in_mult := ⟨2⟩ }, 1,
        ControlState.default⟩) ∧
    (SpinHp.sub_clamped ⟨50⟩ (max ((10:ℚ) * (2:ℚ)) 0)).val = 30 :=
  ⟨claim_C10_missing_source_damage
      [(1, ⟨⟨50⟩, { EffectiveStats.default with damage_in_mult := ⟨2⟩ }, 1,
          ControlState.default⟩)]
      99 1 10 DamageKind.Obstacle []
      ⟨⟨50⟩, { EffectiveStats.default with damage_in_mult := ⟨2⟩ }, 1,
        ControlState.default⟩
      (by rfl) (by rfl),
   by norm_num [SpinHp.sub_clamped]⟩

-- ── Length evaluation helper ────────────────────────────────────────

@[simp]
lemma len_xaxis (a : ℚ) : Vec2.len ⟨a, 0⟩ = |a| := by
  have h : Vec2.normSq ⟨a, 0⟩ = a * a := by
    simp [Vec2.normSq, Vec2.dot]
  rw [Vec2.len, h, Rat.sqrt_eq]

-- ── C1 ──────────────────────────────────────────────────────────────

/-- Counterexample to C1: a head-on collision between a fast heavy-speed top
and a slow one. After `resolve_top_collision`, top B carries velocity
`(5, 0)` of magnitude `5`, exceeding its effective max speed `1` — the claimed
post-resolution clamp does not exist in the code. -/
theorem claim_C1_counterexample :
    (resolve_top_collision Tuning.default ⟨0, 1, 10, ⟨1, 0⟩⟩
        ⟨⟨-(1/2), 0⟩, ⟨5, 0⟩,
          { EffectiveStats.default with radius := 1, move_speed := 5 }⟩
        ⟨⟨1/2, 0⟩, ⟨-5, 0⟩,
          { EffectiveStats.default with radius := 1, move_speed := 1 }⟩) =
      (⟨⟨-1, 0⟩, ⟨-5, 0⟩,
          { EffectiveStats.default with radius := 1, move_speed := 5 }⟩,
       ⟨⟨1, 0⟩, ⟨5, 0⟩,
          { EffectiveStats.default with radius := 1, move_speed := 1 }⟩) ∧
    ¬ (Vec2.len ⟨5, 0⟩ ≤ (1 : ℚ)) := by
  constructor
  · norm_num [resolve_top_collision, Tuning.default, EffectiveStats.default,
      Vec2.sub, Vec2.add, Vec2.smul, Vec2.dot, Vec2.len, Vec2.normSq]
  · norm_num

-- Pointwise SpinHp bounds are preserved by one damage event and by the fold.

lemma sub_clamped_bounds (s : SpinHp) (d mx : ℚ) (h0 : 0 ≤ s.val)
    (hmx : s.val ≤ mx) (hd : 0 ≤ d) :
    0 ≤ (s.sub_clamped d).val ∧ (s.sub_clamped d).val ≤ mx := by
  unfold SpinHp.sub_clamped
  refine ⟨le_max_right _ _, max_le (by linarith) (le_trans h0 hmx)⟩

lemma apply_damage_event_bounds (w : TopWorld) (ev : GameEvent)
    (hw : ∀ p ∈ w, 0 ≤ (p.2).spin.val ∧ (p.2).spin.val ≤ (p.2).stats.spin_hp_max.val) :
    ∀ p ∈ apply_damage_event w ev,
      0 ≤ (p.2).spin.val ∧ (p.2).spin.val ≤ (p.2).stats.spin_hp_max.val := by
  intro p hp
  cases ev with
  | DealDamage src dst amount kind tags =>
      simp only [apply_damage_event, updateTop, List.mem_map] at hp
      obtain ⟨q, hq, rfl⟩ := hp
      by_cases h : q.1 == dst
      · simp only [h, if_true]
        exact sub_clamped_bounds _ _ _ (hw q hq).1 (hw q hq).2 (le_max_right _ _)
      · simp only [h, Bool.false_eq_true, if_false]
        exact hw q hq
  | ApplyControl src dst control => exact hw p hp
  | SpawnProjectile src position direction speed damage radius lifetime =>
      exact hw p hp
  | DespawnEntity e => exact hw p hp

lemma apply_damage_events_bounds (events : List GameEvent) (w : TopWorld)
    (hw : ∀ p ∈ w, 0 ≤ (p.2).spin.val ∧ (p.2).spin.val ≤ (p.2).stats.spin_hp_max.val) :
    ∀ p ∈ apply_damage_events w events,
      0 ≤ (p.2).spin.val ∧ (p.2).spin.val ≤ (p.2).stats.spin_hp_max.val := by
  induction events generalizing w with
  | nil => exact hw
  | cons ev rest ih =>
      exact ih (apply_damage_event w ev) (apply_damage_event_bounds w ev hw)

/-- Claim C1, amended: the SpinHp invariant `0 ≤ SpinHp ≤ max_spin_hp` is
preserved by the systems that mutate SpinHp (`apply_damage_events` and
`spin_drain`, given non-negative drain rate and dt). The velocity bound,
however, is not re-established after top–top momentum resolution (see the
counterexample): `resolve_top_collisions` applies no speed clamp. -/
theorem claim_C1_amended_spinhp_invariant :
    ∀ (tun : Tuning) (events : List GameEvent) (w : TopWorld)
      (stats : EffectiveStats) (spin : SpinHp) (e : Entity) (t : TopCombat),
      (∀ p ∈ w, 0 ≤ (p.2).spin.val ∧ (p.2).spin.val ≤ (p.2).stats.spin_hp_max.val) →
      0 ≤ stats.spin_drain_idle_per_sec → 0 ≤ tun.dt →
      0 ≤ spin.val → spin.val ≤ stats.spin_hp_max.val →
      (e, t) ∈ apply_damage_events w events →
      (0 ≤ t.spin.val ∧ t.spin.val ≤ t.stats.spin_hp_max.val) ∧
      (0 ≤ (spin_drain tun stats spin).val ∧
        (spin_drain tun stats spin).val ≤ stats.spin_hp_max.val) := by
  intro tun events w stats spin e t hw hdrain hdt h0 hmax hmem
  refine ⟨apply_damage_events_bounds events w hw (e, t) hmem, ?_⟩
  exact sub_clamped_bounds spin _ _ h0 hmax (mul_nonneg hdrain hdt)

/-- Witness for the amended C1 at a concrete world and event batch. -/
theorem claim_C1_amended_witness :
    (0 ≤ (SpinHp.mk 40).val ∧ (SpinHp.mk 40).val ≤
      (EffectiveStats.default).spin_hp_max.val) ∧
    (0 ≤ (spin_drain Tuning.default EffectiveStats.default ⟨50⟩).val ∧
      (spin_drain Tuning.default EffectiveStats.default ⟨50⟩).val ≤
        (EffectiveStats.default).spin_hp_max.val) :=
  claim_C1_amended_spinhp_invariant Tuning.default
    [GameEvent.DealDamage none 1 10 DamageKind.Wall []]
    [(1, ⟨⟨50⟩, EffectiveStats.default, 1, ControlState.default⟩)]
    EffectiveStats.default ⟨50⟩ 1
    ⟨⟨40⟩, EffectiveStats.default, 1, ControlState.default⟩
    (by norm_num [EffectiveStats.default])
    (by norm_num [EffectiveStats.default])
    (by norm_num [Tuning.default])
    (by norm_num) (by norm_num [EffectiveStats.default])
    (by norm_num [apply_damage_events, apply_damage_event, updateTop, findTop,
      SpinHp.sub_clamped, Multiplier.one, EffectiveStats.default])

-- ── C2 ──────────────────────────────────────────────────────────────

/-- Counterexample to C2: the spec's own wall-reflection example (arena 12,
top radius 1, position `(11.5, 0)`, velocity `(5, 0)`, damping 1). The
corrected position `(11, 0)` and reflected velocity `(-5, 0)` match the
claim, but the emitted wall damage is the fixed `wall_damage_k = 3/10`, not
`wall_damage_k × (v·n) = 3/10 × 5`. -/
theorem claim_C2_counterexample :
    (wall_reflection Tuning.default 12 0
        ⟨⟨23/2, 0⟩, ⟨5, 0⟩, { EffectiveStats.default with radius := 1 }⟩) =
      (⟨⟨11, 0⟩, ⟨-5, 0⟩, { EffectiveStats.default with radius := 1 }⟩,
       [GameEvent.DealDamage none 0 (3/10) DamageKind.Wall ["wall_hit"]]) ∧
    (3/10 : ℚ) ≠ Tuning.default.wall_damage_k * 5 := by
  constructor
  · norm_num [wall_reflection, Tuning.default, EffectiveStats.default,
      Vec2.sub, Vec2.smul, Vec2.dot, abs_of_nonneg]
  · norm_num [Tuning.default]

/-- Claim C2, amended: for every top that contacts the boundary while moving
outward (`v·n > 0`, with positive `wall_damage_k`), the emitted wall-damage
event has the FIXED amount `wall_damage_k`, independent of the impact speed;
the position is pushed back along the normal by the overshoot and the
velocity is reflected about the normal and scaled by the clamped damping. -/
theorem claim_C2_amended_wall_damage_fixed :
    ∀ (tun : Tuning) (arena_r : ℚ) (entity : Entity) (st : TopPhys),
      arena_r - st.stats.radius < st.pos.len → 0 < st.pos.len →
      0 < st.vel.dot (st.pos.smul (1 / st.pos.len)) →
      0 < tun.wall_damage_k →
      (wall_reflection tun arena_r entity st).2 =
        [GameEvent.DealDamage none entity tun.wall_damage_k DamageKind.Wall
          ["wall_hit"]] ∧
      (wall_reflection tun arena_r entity st).1.pos =
        st.pos.sub ((st.pos.smul (1 / st.pos.len)).smul
          (st.pos.len - (arena_r - st.stats.radius))) ∧
      (wall_reflection tun arena_r entity st).1.vel =
        (st.vel.sub ((st.pos.smul (1 / st.pos.len)).smul
          (2 * (st.vel.dot (st.pos.smul (1 / st.pos.len)))))).smul
          (min (max tun.wall_bounce_damping 0) 1) := by
  intro tun arena_r entity st h1 h2 h3 h4
  simp only [wall_reflection]
  rw [if_pos (And.intro h1 h2), if_pos h3, if_pos h4]
  exact ⟨rfl, rfl, rfl⟩

/-- Witness for the amended C2 at the spec's concrete example. -/
theorem claim_C2_amended_witness :
    (wall_reflection Tuning.default 12 0
        ⟨⟨23/2, 0⟩, ⟨5, 0⟩, { EffectiveStats.default with radius := 1 }⟩).2 =
      [GameEvent.DealDamage none 0 Tuning.default.wall_damage_k DamageKind.Wall
        ["wall_hit"]] ∧
    (wall_reflection Tuning.default 12 0
        ⟨⟨23/2, 0⟩, ⟨5, 0⟩, { EffectiveStats.default with radius := 1 }⟩).1.pos =
      Vec2.sub ⟨23/2, 0⟩ (Vec2.smul (Vec2.len ⟨23/2, 0⟩ - (12 - 1))
        (Vec2.smul (1 / Vec2.len ⟨23/2, 0⟩) ⟨23/2, 0⟩)) ∧
    (wall_reflection Tuning.default 12 0
        ⟨⟨23/2, 0⟩, ⟨5, 0⟩, { EffectiveStats.default with radius := 1 }⟩).1.vel =
      Vec2.smul (min (max Tuning.default.wall_bounce_damping 0) 1)
        (Vec2.sub ⟨5, 0⟩ (Vec2.smul
          (2 * Vec2.dot ⟨5, 0⟩ (Vec2.smul (1 / Vec2.len ⟨23/2, 0⟩) ⟨23/2, 0⟩))
          (Vec2.smul (1 / Vec2.len ⟨23/2, 0⟩) ⟨23/2, 0⟩))) :=
  claim_C2_amended_wall_damage_fixed Tuning.default 12 0
    ⟨⟨23/2, 0⟩, ⟨5, 0⟩, { EffectiveStats.default with radius := 1 }⟩
    (by norm_num [EffectiveStats.default, abs_of_nonneg])
    (by norm_num [abs_of_nonneg])
    (by norm_num [Vec2.dot, Vec2.smul, abs_of_nonneg])
    (by norm_num [Tuning.default])

-- ── C4 ──────────────────────────────────────────────────────────────

/-- Counterexample to C4: a top whose cached `EffectiveStats.accel` is `0`
still accelerates, because `apply_intent` reads the global
`tuning.input_accel` (25), not the cached per-top acceleration. The claimed
delta `intent_direction × stats.accel × dt = 0` disagrees with the computed
velocity `(5/12, 0)`. -/
theorem claim_C4_counterexample :
    apply_intent Tuning.default ⟨⟨1, 0⟩, false⟩
        ⟨⟨0, 0⟩, { EffectiveStats.default with accel := 0, move_speed := 10 },
          ControlState.default⟩ = ⟨5/12, 0⟩ ∧
    (⟨5/12, 0⟩ : Vec2) ≠
      Vec2.add ⟨0, 0⟩ ((Vec2.normalizeOrZero ⟨1, 0⟩).smul
        ((0 : ℚ) * Tuning.default.dt)) := by
  constructor
  · norm_num [apply_intent, Tuning.default, EffectiveStats.default,
      ControlState.default, ControlState.is_stunned, ControlState.is_slowed,
      Seconds.is_expired, Vec2.normalizeOrZero, Vec2.zero, Vec2.add, Vec2.smul,
      Vec2.mk.injEq, abs_of_nonneg]
  · norm_num [Vec2.normalizeOrZero, Vec2.zero, Vec2.add, Vec2.smul,
      Vec2.mk.injEq, Tuning.default, abs_of_nonneg]

/-- Claim C4, amended: for a non-stunned top with a non-zero movement intent,
the tick adds `normalize(intent_direction) × tuning.input_accel × dt` to the
velocity (the acceleration constant comes from the global tuning, not from
the cached `EffectiveStats.accel`, which the computation ignores entirely),
and the subsequent clamp uses `EffectiveStats.move_speed` scaled by the
active slow ratio. -/
theorem claim_C4_amended_accel_from_tuning :
    ∀ (tun : Tuning) (intent : Intent) (st : IntentTopState) (a : ℚ),
      st.control.is_stunned = false → intent.move_dir ≠ Vec2.zero →
      (apply_intent tun intent st =
        speed_clamp (st.stats.move_speed * slow_mult st.control)
          (st.vel.add ((intent.move_dir.normalizeOrZero).smul
            (tun.input_accel * tun.dt)))) ∧
      (apply_intent tun intent
          { st with stats := { st.stats with accel := a } } =
        apply_intent tun intent st) := by
  intro tun intent st a hstun hdir
  constructor
  · simp only [apply_intent, speed_clamp, slow_mult, hstun, Bool.false_eq_true,
      if_false, hdir, if_true, ne_eq, not_false_eq_true]
  · simp only [apply_intent, hstun, Bool.false_eq_true, if_false]

/-- Witness for the amended C4 at a concrete top and intent. -/
theorem claim_C4_amended_witness :
    (apply_intent Tuning.default ⟨⟨1, 0⟩, false⟩
        ⟨⟨0, 0⟩, { EffectiveStats.default with accel := 0, move_speed := 10 },
          ControlState.default⟩ =
      speed_clamp
        (({ EffectiveStats.default with accel := 0, move_speed := 10 }
            : EffectiveStats).move_speed * slow_mult ControlState.default)
        (Vec2.add ⟨0, 0⟩ ((Vec2.normalizeOrZero ⟨1, 0⟩).smul
          (Tuning.default.input_accel * Tuning.default.dt)))) ∧
    (apply_intent Tuning.default ⟨⟨1, 0⟩, false⟩
        ⟨⟨0, 0⟩,
          { { EffectiveStats.default with accel := 0, move_speed := 10 } with
            accel := 7 },
          ControlState.default⟩ =
      apply_intent Tuning.default ⟨⟨1, 0⟩, false⟩
        ⟨⟨0, 0⟩, { EffectiveStats.default with accel := 0, move_speed := 10 },
          ControlState.default⟩) :=
  claim_C4_amended_accel_from_tuning Tuning.default ⟨⟨1, 0⟩, false⟩
    ⟨⟨0, 0⟩, { EffectiveStats.default with accel := 0, move_speed := 10 },
      ControlState.default⟩ 7
    (by simp [ControlState.is_stunned, Seconds.is_expired, ControlState.default])
    (by simp [Vec2.zero, Vec2.mk.injEq])

-- ── C5 ──────────────────────────────────────────────────────────────

/-- Counterexample to C5: one projectile (owner `0`) overlapped by the two
non-owner tops `1` and `2` in the same tick produces TWO `DealDamage` events
in the tick's batch — the detection loop does not stop at the first hit. -/
theorem claim_C5_counterexample :
    ((detect_projectile_hits ⟨10, ⟨0, 0⟩, 1, 0, 7⟩
        [⟨0, ⟨3, 0⟩, ⟨0, 0⟩, EffectiveStats.default⟩,
         ⟨1, ⟨1/2, 0⟩, ⟨0, 0⟩, { EffectiveStats.default with radius := 1 }⟩,
         ⟨2, ⟨-(1/2), 0⟩, ⟨0, 0⟩,
           { EffectiveStats.default with radius := 1 }⟩]).countP
      isDealDamage = 2) ∧
    ¬ ((detect_projectile_hits ⟨10, ⟨0, 0⟩, 1, 0, 7⟩
        [⟨0, ⟨3, 0⟩, ⟨0, 0⟩, EffectiveStats.default⟩,
         ⟨1, ⟨1/2, 0⟩, ⟨0, 0⟩, { EffectiveStats.default with radius := 1 }⟩,
         ⟨2, ⟨-(1/2), 0⟩, ⟨0, 0⟩,
           { EffectiveStats.default with radius := 1 }⟩]).countP
      isDealDamage ≤ 1) := by
  constructor
  · norm_num [detect_projectile_hits, Vec2.dist, Vec2.sub,
      EffectiveStats.default, isDealDamage, abs_of_nonneg, abs_of_nonpos,
      List.countP_cons]
  · norm_num [detect_projectile_hits, Vec2.dist, Vec2.sub,
      EffectiveStats.default, isDealDamage, abs_of_nonneg, abs_of_nonpos,
      List.countP_cons]

/-- Claim C5, amended: the projectile–top pass emits one `DealDamage` event
for EACH non-owner top overlapping the projectile in that tick (so a
projectile overlapped by several tops registers several hits in the same
batch, before the despawn is processed at cleanup), and each such top
receives exactly the projectile's damage. -/
theorem claim_C5_amended_event_per_overlap :
    ∀ (proj : ProjectileView) (tops : List TopView),
      ((detect_projectile_hits proj tops).countP isDealDamage =
        tops.countP (fun t => !(t.entity == proj.owner) &&
          decide (proj.pos.dist t.pos < proj.radius + t.stats.radius))) ∧
      (∀ t ∈ tops, t.entity ≠ proj.owner →
        proj.pos.dist t.pos < proj.radius + t.stats.radius →
        GameEvent.DealDamage (some proj.owner) t.entity proj.damage
          DamageKind.Projectile [] ∈ detect_projectile_hits proj tops) := by
  intro proj tops
  constructor
  · induction tops with
    | nil => rfl
    | cons t rest ih =>
        simp only [detect_projectile_hits, List.flatMap_cons, List.countP_append,
          List.countP_cons, beq_iff_eq] at ih ⊢
        by_cases howner : t.entity = proj.owner
        · simp [howner, ih]
        · by_cases hd : proj.pos.dist t.pos < proj.radius + t.stats.radius
          · simp only [howner, hd, if_false, if_true, if_neg, if_pos,
              List.countP_cons, List.cons_append, List.nil_append, ih,
              isDealDamage]
            simp [howner, hd, isDealDamage, ih]
            omega
          · simp [howner, hd, ih]
  · intro t ht howner hd
    simp only [detect_projectile_hits, List.mem_flatMap]
    refine ⟨t, ht, ?_⟩
    have hb : (t.entity == proj.owner) = false := by simpa using howner
    simp [hb, hd]

/-- Witness for the amended C5: top `1` overlapping the projectile owned by
`0` receives its `DealDamage` event. -/
theorem claim_C5_amended_witness :
    GameEvent.DealDamage (some 0) 1 7 DamageKind.Projectile [] ∈
      detect_projectile_hits ⟨10, ⟨0, 0⟩, 1, 0, 7⟩
        [⟨0, ⟨3, 0⟩, ⟨0, 0⟩, EffectiveStats.default⟩,
         ⟨1, ⟨1/2, 0⟩, ⟨0, 0⟩, { EffectiveStats.default with radius := 1 }⟩,
         ⟨2, ⟨-(1/2), 0⟩, ⟨0, 0⟩,
           { EffectiveStats.default with radius := 1 }⟩] :=
  (claim_C5_amended_event_per_overlap ⟨10, ⟨0, 0⟩, 1, 0, 7⟩
      [⟨0, ⟨3, 0⟩, ⟨0, 0⟩, EffectiveStats.default⟩,
       ⟨1, ⟨1/2, 0⟩, ⟨0, 0⟩, { EffectiveStats.default with radius := 1 }⟩,
       ⟨2, ⟨-(1/2), 0⟩, ⟨0, 0⟩,
         { EffectiveStats.default with radius := 1 }⟩]).2
    ⟨1, ⟨1/2, 0⟩, ⟨0, 0⟩, { EffectiveStats.default with radius := 1 }⟩
    (by simp)
    (by norm_num)
    (by norm_num [Vec2.dist, Vec2.sub, EffectiveStats.default, abs_of_nonneg])

-- ── C3 ──────────────────────────────────────────────────────────────

/-- Claim C3 (code bug): a top inside a speed-boost zone gets its
`SpeedBoostEffect.multiplier` set to the zone's multiplier (here 2), yet the
position integration in the very same `PhysicsSet` chain advances the
position by plain `velocity × dt = (1/60, 0)`, not by
`velocity × boost_multiplier × dt = (1/30, 0)`: the recorded multiplier is
never read by the physics integration. -/
theorem claim_C3_boost_multiplier_ignored :
    (physics_set_zone_chain Tuning.default 0 [⟨⟨0, 0⟩, 3, 2, 5⟩]
        ⟨⟨0, 0⟩, ⟨1, 0⟩, EffectiveStats.default, ⟨0, 1⟩⟩).effect.multiplier = 2 ∧
    (physics_set_zone_chain Tuning.default 0 [⟨⟨0, 0⟩, 3, 2, 5⟩]
        ⟨⟨0, 0⟩, ⟨1, 0⟩, EffectiveStats.default, ⟨0, 1⟩⟩).pos = ⟨1/60, 0⟩ ∧
    (⟨1/60, 0⟩ : Vec2) ≠
      Vec2.add ⟨0, 0⟩ (Vec2.smul Tuning.default.dt (Vec2.smul 2 ⟨1, 0⟩)) := by
  refine ⟨?_, ?_, ?_⟩
  · norm_num [physics_set_zone_chain, speed_boost_system, speed_boost_tick,
      integrate_physics, Tuning.default, EffectiveStats.default, Vec2.dist,
      Vec2.sub, Vec2.add, Vec2.smul, List.foldl, abs_of_nonneg]
  · norm_num [physics_set_zone_chain, speed_boost_system, speed_boost_tick,
      integrate_physics, Tuning.default, EffectiveStats.default, Vec2.dist,
      Vec2.sub, Vec2.add, Vec2.smul, List.foldl, abs_of_nonneg]
  · norm_num [Vec2.add, Vec2.smul, Vec2.mk.injEq, Tuning.default]

-- ── C9 support ──────────────────────────────────────────────────────

lemma can_hit_iff (tr : MeleeHitTracker) (target : Entity) :
    tr.can_hit target = true ↔ ∀ p ∈ tr.cooldowns, p.1 = target → p.2 ≤ 0 := by
  simp only [MeleeHitTracker.can_hit, Bool.not_eq_true', List.any_eq_false,
    Bool.and_eq_true, beq_iff_eq, decide_eq_true_eq, not_and, not_lt]

lemma can_hit_false_iff (tr : MeleeHitTracker) (target : Entity) :
    tr.can_hit target = false ↔ ∃ p ∈ tr.cooldowns, p.1 = target ∧ 0 < p.2 := by
  rw [← Bool.not_eq_true, can_hit_iff]
  push_neg
  constructor
  · rintro ⟨p, hp, h1, h2⟩
    exact ⟨p, hp, h1, h2⟩
  · rintro ⟨p, hp, h1, h2⟩
    exact ⟨p, hp, h1, h2⟩

lemma tick_foldl_mem (dts : List ℚ) (tr : MeleeHitTracker) (target : Entity)
    (c : ℚ) (hdts : ∀ d ∈ dts, 0 ≤ d) (hmem : (target, c) ∈ tr.cooldowns)
    (hsum : dts.sum < c) :
    (target, c - dts.sum) ∈ (dts.foldl MeleeHitTracker.tick tr).cooldowns := by
  induction dts generalizing tr c with
  | nil => simpa using hmem
  | cons d rest ih =>
      have hrest : ∀ x ∈ rest, 0 ≤ x := fun x hx => hdts x (by simp [hx])
      have hrs : 0 ≤ rest.sum := List.sum_nonneg hrest
      have hsum' : rest.sum < c - d := by
        simp only [List.sum_cons] at hsum
        linarith
      have hpos : (0:ℚ) < c - d := by linarith
      have hmem' : (target, c - d) ∈ (tr.tick d).cooldowns := by
        simp only [MeleeHitTracker.tick, List.mem_filter, List.mem_map]
        exact ⟨⟨(target, c), hmem, rfl⟩, by simpa using hpos⟩
      have h := ih (tr.tick d) (c - d) hrest hmem' hsum'
      simp only [List.foldl_cons, List.sum_cons]
      have heq : c - (d + rest.sum) = c - d - rest.sum := by ring
      rw [heq]
      exact h

lemma tick_foldl_can_hit (dts : List ℚ) (tr : MeleeHitTracker) (target : Entity)
    (c : ℚ) (hdts : ∀ d ∈ dts, 0 ≤ d)
    (hbound : ∀ p ∈ tr.cooldowns, p.1 = target → p.2 ≤ c)
    (hsum : c ≤ dts.sum) :
    (dts.foldl MeleeHitTracker.tick tr).can_hit target = true := by
  induction dts generalizing tr c with
  | nil =>
      simp only [List.foldl_nil]
      rw [can_hit_iff]
      intro p hp he
      have := hbound p hp he
      simp only [List.sum_nil] at hsum
      linarith
  | cons d rest ih =>
      have hrest : ∀ x ∈ rest, 0 ≤ x := fun x hx => hdts x (by simp [hx])
      have hbound' : ∀ p ∈ (tr.tick d).cooldowns, p.1 = target → p.2 ≤ c - d := by
        intro p hp he
        simp only [MeleeHitTracker.tick, List.mem_filter, List.mem_map] at hp
        obtain ⟨⟨q, hq, rfl⟩, _⟩ := hp
        have := hbound q hq he
        simp only
        linarith
      have hsum' : c - d ≤ rest.sum := by
        simp only [List.sum_cons] at hsum
        linarith
      simp only [List.foldl_cons]
      exact ih (tr.tick d) (c - d) hrest hbound' hsum'

lemma register_keeps_blocked (tr : MeleeHitTracker) (target x : Entity) (cd : ℚ)
    (h : tr.can_hit target = false) :
    (tr.register_hit x cd).can_hit target = false := by
  rw [can_hit_false_iff] at h ⊢
  obtain ⟨p, hp, h1, h2⟩ := h
  exact ⟨p, by simp [MeleeHitTracker.register_hit, hp], h1, h2⟩

lemma melee_try_target_blocked (tun : Tuning) (melee : MeleeSpec)
    (atk : AttackerView) (tracker : MeleeHitTracker) (tgt : Entity) (t : TopView)
    (h : tracker.can_hit tgt = false) :
    ((melee_try_target tun melee atk tracker t).1.can_hit tgt = false) ∧
    (∀ e ∈ (melee_try_target tun melee atk tracker t).2,
      isMeleeDealTo tgt e = false) := by
  by_cases h2 : t.entity = tgt
  · subst h2
    unfold melee_try_target
    by_cases h1 : (atk.entity == t.entity) = true
    · simp [h1, h]
    · simp [h1, h]
  · have hne : (t.entity == tgt) = false := by simpa using h2
    simp only [melee_try_target]
    by_cases hA : (atk.entity == t.entity) = true
    · rw [if_pos hA]
      exact ⟨h, by simp⟩
    rw [if_neg hA]
    by_cases hB : (!tracker.can_hit t.entity) = true
    · rw [if_pos hB]
      exact ⟨h, by simp⟩
    rw [if_neg hB]
    by_cases hC : atk.stats.radius + melee.hitbox_radius + t.stats.radius <
        (t.pos.sub atk.pos).len
    · rw [if_pos hC]
      exact ⟨h, by simp⟩
    rw [if_neg hC]
    by_cases hD : 0 < (t.pos.sub atk.pos).len ∧
        atk.weapon_dir.dot (Vec2.smul (1 / (t.pos.sub atk.pos).len)
          (t.pos.sub atk.pos)) < melee.cos_half_hitbox_angle
    · rw [if_pos hD]
      exact ⟨h, by simp⟩
    rw [if_neg hD]
    refine ⟨register_keeps_blocked _ _ _ _ h, ?_⟩
    intro e he
    cases hctl : melee.hit_control with
    | none =>
        simp only [hctl, List.mem_singleton] at he
        subst he
        simp [isMeleeDealTo, hne]
    | some control =>
        simp only [hctl, List.mem_append, List.mem_singleton] at he
        cases he with
        | inl he => subst he; simp [isMeleeDealTo, hne]
        | inr he => subst he; simp [isMeleeDealTo]

lemma detect_fold_no_event (tun : Tuning) (melee : MeleeSpec)
    (atk : AttackerView) (tgt : Entity) :
    ∀ (targets : List TopView) (tracker : MeleeHitTracker)
      (evs : List GameEvent),
      tracker.can_hit tgt = false →
      (∀ e ∈ evs, isMeleeDealTo tgt e = false) →
      ∀ e ∈ (targets.foldl
          (fun (acc : MeleeHitTracker × List GameEvent) t =>
            let r := melee_try_target tun melee atk acc.1 t
            (r.1, acc.2 ++ r.2)) (tracker, evs)).2,
        isMeleeDealTo tgt e = false := by
  intro targets
  induction targets with
  | nil =>
      intro tracker evs h hevs e he
      exact hevs e he
  | cons t rest ih =>
      intro tracker evs h hevs e he
      simp only [List.foldl_cons] at he
      have hb := melee_try_target_blocked tun melee atk tracker tgt t h
      refine ih _ _ hb.1 ?_ e he
      intro x hx
      rcases List.mem_append.mp hx with h1 | h1
      · exact hevs x h1
      · exact hb.2 x h1

-- ── C9 ──────────────────────────────────────────────────────────────

/-- Claim C9: after `register_hit target c` on a tracker that could hit
`target`, ticking the tracker frame by frame with non-negative `dt`s allows
hitting `target` again exactly when the accumulated `dt` reaches `c`
(cooldowns tick down and are pruned once expired); and while a target is on
cooldown, `detect_melee_hits` emits no melee `DealDamage` event to it. -/
theorem claim_C9_melee_cooldown :
    (∀ (tr : MeleeHitTracker) (target : Entity) (c : ℚ) (dts : List ℚ),
      (∀ d ∈ dts, 0 ≤ d) → tr.can_hit target = true →
      ((dts.foldl MeleeHitTracker.tick (tr.register_hit target c)).can_hit
          target = true ↔ c ≤ dts.sum)) ∧
    (∀ (tun : Tuning) (atk : AttackerView) (targets : List TopView)
      (tgt : Entity),
      atk.tracker.can_hit tgt = false →
      ∀ e ∈ (detect_melee_hits tun atk targets).2,
        isMeleeDealTo tgt e = false) := by
  constructor
  · intro tr target c dts hdts htr
    constructor
    · intro hcan
      by_contra hc
      push_neg at hc
      have hmem : (target, c) ∈ (tr.register_hit target c).cooldowns := by
        simp [MeleeHitTracker.register_hit]
      have h2 := tick_foldl_mem dts (tr.register_hit target c) target c hdts
        hmem hc
      have h3 := (can_hit_iff _ target).mp hcan (target, c - dts.sum) h2 rfl
      have h4 : c - dts.sum ≤ 0 := h3
      linarith
    · intro hsum
      apply tick_foldl_can_hit dts _ target (max c 0)
      · exact hdts
      · intro p hp he
        simp only [MeleeHitTracker.register_hit, List.mem_append,
          List.mem_singleton] at hp
        cases hp with
        | inl hp =>
            exact le_trans ((can_hit_iff tr target).mp htr p hp he)
              (le_max_right _ _)
        | inr hp =>
            subst hp
            exact le_max_left _ _
      · exact max_le hsum (List.sum_nonneg hdts)
  · intro tun atk targets tgt h
    cases hm : atk.melee with
    | none =>
        intro e he
        simp [detect_melee_hits, hm] at he
    | some melee =>
        intro e he
        simp only [detect_melee_hits, hm] at he
        exact detect_fold_no_event tun melee atk tgt targets atk.tracker []
          h (by simp) e he

/-- Witness for C9: a `0.5 s` cooldown is exhausted after two ticks of
`0.25 s`; and an attacker whose tracker still blocks target `2` emits no
melee damage against it. -/
theorem claim_C9_witness :
    ((([(1:ℚ)/4, 1/4].foldl MeleeHitTracker.tick
        ((MeleeHitTracker.mk []).register_hit 1 (1/2))).can_hit 1 = true) ↔
      (1/2 : ℚ) ≤ [(1:ℚ)/4, 1/4].sum) ∧
    (∀ e ∈ (detect_melee_hits Tuning.default
        ⟨0, ⟨0, 0⟩, ⟨1, 0⟩, some ⟨5/2, 1/2, 1/2, 11/2, none⟩,
          EffectiveStats.default, ⟨0, 0⟩, ⟨[(2, 1)]⟩⟩
        [⟨2, ⟨1, 0⟩, ⟨0, 0⟩, EffectiveStats.default⟩]).2,
      isMeleeDealTo 2 e = false) :=
  ⟨claim_C9_melee_cooldown.1 ⟨[]⟩ 1 (1/2) [(1:ℚ)/4, 1/4]
      (by norm_num) (by rfl),
   claim_C9_melee_cooldown.2 Tuning.default
      ⟨0, ⟨0, 0⟩, ⟨1, 0⟩, some ⟨5/2, 1/2, 1/2, 11/2, none⟩,
        EffectiveStats.default, ⟨0, 0⟩, ⟨[(2, 1)]⟩⟩
      [⟨2, ⟨1, 0⟩, ⟨0, 0⟩, EffectiveStats.default⟩] 2
      (by norm_num [MeleeHitTracker.can_hit])⟩
